import Mathlib

/-!
Verification of the banking-data-validator core (`app/validators.py`,
`app/main.py`) against its natural-language specification.

The Python code is shallowly embedded: Python strings become `List Char`,
CSV cell values become `Option (List Char)` (`Option.none` models Python
`None`, as produced by the CSV reader for missing trailing columns), and a
row dict becomes an association list from field name to cell value.  Each
validator function is translated directly from the source; the library
calls it makes (`str.strip`, `re.match` on the concrete patterns used,
`float(...)`, `datetime.strptime(..., "%Y-%m-%d")`, `repr` of strings,
`collections.Counter`) are embedded as executable Lean functions over the
printable-ASCII fragment that the data model uses.
-/

namespace BankingValidator

/-- PyStr models a Python string as its list of characters. -/
abbrev PyStr := List Char

/-- lit converts a Lean string literal to the character-list representation. -/
def lit (s : String) : PyStr := s.data

/-- PyVal models one CSV cell value as the parser produces it: a string, or
the Python value `None` (modelled by `Option.none`). -/
abbrev PyVal := Option PyStr

/-- Row models a Python dict row: an association list from field name to
cell value.  The CSV reader produces unique keys; lookup takes the first
match. -/
abbrev Row := List (PyStr × PyVal)

/-- rowGet? models `field in row` / `row[field]`: `Option.none` when the key
is absent, `Option.some v` when present with value `v`. -/
def rowGet? : Row → PyStr → Option PyVal
  | [], _ => Option.none
  | (k, v) :: r, f => if k = f then Option.some v else rowGet? r f

/-- pyGet models `row.get(field, "")`. -/
def pyGet (r : Row) (f : PyStr) : PyVal := (rowGet? r f).getD (Option.some [])

/-- pyStr models Python `str(...)` on a cell value: `str(None) = "None"`,
strings unchanged. -/
def pyStr : PyVal → PyStr
  | Option.none => lit "None"
  | Option.some s => s

/-- pyTruthy models Python truthiness of a cell value (`not val` negated):
`None` and the empty string are falsy, every other string is truthy. -/
def pyTruthy : PyVal → Bool
  | Option.none => false
  | Option.some s => !s.isEmpty

/-- isPySpace models the ASCII whitespace characters stripped by
`str.strip()`. -/
def isPySpace (c : Char) : Bool :=
  c == ' ' || c == '\t' || c == '\n' || c == '\r' || c == '\x0b' || c == '\x0c'

/-- pyStrip models `str.strip()`: drop leading and trailing whitespace. -/
def pyStrip (s : PyStr) : PyStr :=
  ((s.dropWhile isPySpace).reverse.dropWhile isPySpace).reverse

/-- PyError is the standardized error dict built by `_error`. -/
structure PyError where
  row : Nat
  column : PyStr
  message : PyStr
  severity : PyStr
  deriving DecidableEq, Repr

/-- mkErr models `_error(row, column, message, severity)`; the Python
default severity `"error"` is passed explicitly at each call site. -/
def mkErr (row : Nat) (column : PyStr) (message : PyStr) (severity : PyStr) : PyError :=
  ⟨row, column, message, severity⟩

/-- required is the fixed list of required columns of
`check_required_fields`. -/
def required : List PyStr :=
  [lit "account_number", lit "transaction_date", lit "amount"]

/-- requiredCheckOne is the body of the `for field in required` loop of
`check_required_fields` for one field. -/
def requiredCheckOne (row : Row) (idx : Nat) (field : PyStr) : List PyError :=
  match rowGet? row field with
  | Option.none =>
      [mkErr idx field (lit "Required field \x27" ++ field ++ lit "\x27 is missing") (lit "error")]
  | Option.some v =>
      if v = Option.none ∨ pyStrip (pyStr v) = [] then
        [mkErr idx field (lit "Required field \x27" ++ field ++ lit "\x27 is empty") (lit "error")]
      else []

/-- check_required_fields ensures critical fields are present and not
empty (translation of the Python function of the same name). -/
def check_required_fields (row : Row) (idx : Nat) : List PyError :=
  required.flatMap (requiredCheckOne row idx)

/-- dupKey is the composite key built by `check_duplicate_transactions`:
the trimmed `str(...)` of `row.get(f, "")` for the four fields listed in
the source, `currency` included. -/
def dupKey (row : Row) : List PyStr :=
  [pyStrip (pyStr (pyGet row (lit "account_number"))),
   pyStrip (pyStr (pyGet row (lit "transaction_date"))),
   pyStrip (pyStr (pyGet row (lit "amount"))),
   pyStrip (pyStr (pyGet row (lit "currency")))]

/-- pyReprEsc is the escaping `repr` applies to one character of a string,
given the chosen quote character (printable-ASCII fragment). -/
def pyReprEsc (q : Char) (c : Char) : PyStr :=
  if c == '\\' then ['\\', '\\']
  else if c == '\n' then ['\\', 'n']
  else if c == '\r' then ['\\', 'r']
  else if c == '\t' then ['\\', 't']
  else if c == q then ['\\', q]
  else [c]

/-- pyReprStr models Python `repr` of a string over the printable-ASCII
fragment: single quotes, switching to double quotes when the string
contains a single quote but no double quote. -/
def pyReprStr (s : PyStr) : PyStr :=
  let useDouble := s.contains '\x27' && !(s.contains '"')
  let q := if useDouble then '"' else '\x27'
  q :: (s.flatMap (pyReprEsc q) ++ [q])

/-- joinSep interleaves a separator between the strings of a list, as
`", ".join(...)` does inside the `str` of a tuple. -/
def joinSep (sep : PyStr) : List PyStr → PyStr
  | [] => []
  | [x] => x
  | x :: y :: xs => x ++ sep ++ joinSep sep (y :: xs)

/-- dupMsg models `f"Duplicate transaction detected: {key}"` where `key`
is a 4-tuple of strings: Python renders the tuple with parentheses and
`repr` of each component. -/
def dupMsg (key : List PyStr) : PyStr :=
  lit "Duplicate transaction detected: (" ++ joinSep (lit ", ") (key.map pyReprStr) ++ lit ")"

/-- dupLoop is the `for idx, row in enumerate(rows, start=1)` loop of
`check_duplicate_transactions`; the `collections.Counter` named `seen` is
modelled by the list of keys counted so far (`seen[key] += 1` is a cons,
`seen[key] > 1` is a count on the list after the cons). -/
def dupLoop : List Row → Nat → List (List PyStr) → List PyError
  | [], _, _ => []
  | r :: rs, idx, seen =>
      let k := dupKey r
      let seen2 := k :: seen
      (if 1 < seen2.count k then
        [mkErr idx (lit "duplicate_check") (dupMsg k) (lit "warning")]
      else []) ++ dupLoop rs (idx + 1) seen2

/-- check_duplicate_transactions checks for duplicate transactions
(translation of the Python function of the same name, currency component
included as in the source). -/
def check_duplicate_transactions (rows : List Row) : List PyError :=
  dupLoop rows 1 []

/-- matchDigits8to12 models `re.match(r"^\d{8,12}$", v)` succeeding, over
the ASCII fragment: the whole string is 8 to 12 decimal digits. -/
def matchDigits8to12 (v : PyStr) : Bool :=
  decide (8 ≤ v.length) && decide (v.length ≤ 12) && v.all Char.isDigit

/-- check_account_number_format requires account numbers of 8-12 digits
(translation of the Python function of the same name). -/
def check_account_number_format (row : Row) (idx : Nat) : List PyError :=
  let val := pyGet row (lit "account_number")
  if ¬ pyTruthy val ∨ pyStrip (pyStr val) = [] then []
  else
    let v := pyStrip (pyStr val)
    if ¬ matchDigits8to12 v then
      [mkErr idx (lit "account_number")
        (lit "Invalid format: \x27" ++ v ++ lit "\x27 (expected 8-12 digits)") (lit "error")]
    else []

/-- pyDropSign drops one leading `+` or `-`. -/
def pyDropSign (s : PyStr) : PyStr :=
  match s with
  | '+' :: r => r
  | '-' :: r => r
  | _ => s

/-- isFloatSpecial recognizes the special float strings `inf`, `infinity`
and `nan`, case-insensitively (sign already removed). -/
def isFloatSpecial (s : PyStr) : Bool :=
  let t := s.map Char.toLower
  t == lit "inf" || t == lit "infinity" || t == lit "nan"

/-- underscoreScan walks the string carrying the previous character and
accepts iff every underscore has a decimal digit immediately on both
sides (the PEP 515 rule `float` enforces). -/
def underscoreScan : Char → PyStr → Bool
  | _, [] => true
  | p, '_' :: rest =>
      match rest with
      | [] => false
      | n :: rest2 => p.isDigit && n.isDigit && underscoreScan '_' (n :: rest2)
  | _, c :: rest => underscoreScan c rest

/-- underscoresOK checks the underscore placement rule of `float` on a
whole string (a leading underscore is rejected by seeding with a
non-digit). -/
def underscoresOK (s : PyStr) : Bool := underscoreScan ' ' s

/-- expDigits checks the digit string of an exponent: optional sign, then
one or more digits. -/
def expDigits (s : PyStr) : Bool :=
  let t := pyDropSign s
  !t.isEmpty && t.all Char.isDigit

/-- floatExpPart checks the optional exponent suffix `e`/`E` followed by a
signed digit string, or nothing. -/
def floatExpPart : PyStr → Bool
  | [] => true
  | 'e' :: r => expDigits r
  | 'E' :: r => expDigits r
  | _ => false

/-- floatMantissa checks the numeric body accepted by `float` once sign
and underscores are gone: digits, or digits with one dot (at least one
digit overall), then an optional exponent. -/
def floatMantissa (s : PyStr) : Bool :=
  let a := s.takeWhile Char.isDigit
  let r := s.drop a.length
  match r with
  | [] => !a.isEmpty
  | '.' :: r2 =>
      let b := r2.takeWhile Char.isDigit
      let r3 := r2.drop b.length
      (!a.isEmpty || !b.isEmpty) && floatExpPart r3
  | _ => !a.isEmpty && floatExpPart r

/-- pyFloatCore decides acceptance of a whitespace-free string by
`float`: optional sign, then either a special string or a numeric body
with well-placed underscores. -/
def pyFloatCore (s : PyStr) : Bool :=
  let u := pyDropSign s
  isFloatSpecial u || (underscoresOK u && floatMantissa (u.filter (fun c => c != '_')))

/-- pyFloatAccepts models `float(s)` succeeding (ASCII fragment): `float`
itself strips surrounding whitespace before parsing. -/
def pyFloatAccepts (s : PyStr) : Bool := pyFloatCore (pyStrip s)

/-- check_amount_is_numeric requires the amount to be a valid number
(translation of the Python function of the same name; note the error
message interpolates `val` before the trimming, exactly as the source
does). -/
def check_amount_is_numeric (row : Row) (idx : Nat) : List PyError :=
  let val := pyGet row (lit "amount")
  if ¬ pyTruthy val ∨ pyStrip (pyStr val) = [] then []
  else if pyFloatAccepts ((pyStrip (pyStr val)).filter (fun c => c != ',')) then []
  else
    [mkErr idx (lit "amount")
      (lit "Not a valid number: \x27" ++ pyStr val ++ lit "\x27") (lit "error")]

/-- matchDateShape models `re.match(r"^\d{4}-\d{2}-\d{2}$", t)` succeeding
over the ASCII fragment. -/
def matchDateShape (t : PyStr) : Bool :=
  match t with
  | [y1, y2, y3, y4, h1, m1, m2, h2, d1, d2] =>
      y1.isDigit && y2.isDigit && y3.isDigit && y4.isDigit && h1 == '-' &&
      m1.isDigit && m2.isDigit && h2 == '-' && d1.isDigit && d2.isDigit
  | _ => false

/-- digitVal is the numeric value of an ASCII digit. -/
def digitVal (c : Char) : Nat := c.toNat - '0'.toNat

/-- isLeapYear is the proleptic Gregorian leap-year rule `datetime`
uses. -/
def isLeapYear (y : Nat) : Bool := y % 4 == 0 && (y % 100 != 0 || y % 400 == 0)

/-- daysInMonth is the month length used by `datetime`. -/
def daysInMonth (y m : Nat) : Nat :=
  if m == 2 then (if isLeapYear y then 29 else 28)
  else if m == 4 || m == 6 || m == 9 || m == 11 then 30
  else 31

/-- strptimeYmdOk models `datetime.strptime(t, "%Y-%m-%d")` succeeding for
a string that already matched the `YYYY-MM-DD` shape: the month must be
01-12, the day 01-(length of that month), and the year at least 0001
(`datetime.MINYEAR`; four digits bound it by 9999). -/
def strptimeYmdOk (t : PyStr) : Bool :=
  match t with
  | [y1, y2, y3, y4, _, m1, m2, _, d1, d2] =>
      let y := ((digitVal y1 * 10 + digitVal y2) * 10 + digitVal y3) * 10 + digitVal y4
      let m := digitVal m1 * 10 + digitVal m2
      let d := digitVal d1 * 10 + digitVal d2
      decide (1 ≤ y) && decide (1 ≤ m) && decide (m ≤ 12) &&
        decide (1 ≤ d) && decide (d ≤ daysInMonth y m)
  | _ => false

/-- check_transaction_date_format requires a valid `YYYY-MM-DD` date
(translation of the Python function of the same name). -/
def check_transaction_date_format (row : Row) (idx : Nat) : List PyError :=
  let val := pyGet row (lit "transaction_date")
  if ¬ pyTruthy val ∨ pyStrip (pyStr val) = [] then []
  else
    let v := pyStrip (pyStr val)
    if ¬ matchDateShape v then
      [mkErr idx (lit "transaction_date")
        (lit "Invalid date format: \x27" ++ v ++ lit "\x27 (expected YYYY-MM-DD)") (lit "error")]
    else if ¬ strptimeYmdOk v then
      [mkErr idx (lit "transaction_date")
        (lit "Invalid date: \x27" ++ v ++ lit "\x27 is not a real calendar date") (lit "error")]
    else []

/-- matchUpper3 models `re.match(r"^[A-Z]{3}$", v)` succeeding: exactly
three uppercase ASCII letters. -/
def matchUpper3 (v : PyStr) : Bool :=
  v.length == 3 && v.all (fun c => decide ('A' ≤ c) && decide (c ≤ 'Z'))

/-- check_currency_code requires a 3-letter ISO code when currency is
present (translation of the Python function of the same name). -/
def check_currency_code (row : Row) (idx : Nat) : List PyError :=
  let val := pyGet row (lit "currency")
  if ¬ pyTruthy val ∨ pyStrip (pyStr val) = [] then []
  else
    let v := pyStrip (pyStr val)
    if ¬ matchUpper3 v then
      [mkErr idx (lit "currency")
        (lit "Invalid currency code: \x27" ++ v ++ lit "\x27 (expected 3-letter ISO like USD, EUR)")
        (lit "warning")]
    else []

/-- RULES is the fixed per-row rule registry, in source order. -/
def RULES : List (Row → Nat → List PyError) :=
  [check_required_fields, check_account_number_format, check_amount_is_numeric,
   check_transaction_date_format, check_currency_code]

/-- GLOBAL_RULES is the fixed dataset-wide rule registry. -/
def GLOBAL_RULES : List (List Row → List PyError) := [check_duplicate_transactions]

/-- runRowRules is the inner `for row_rule in RULES` loop of
`validate_rows` for one row. -/
def runRowRules (row : Row) (idx : Nat) : List PyError :=
  RULES.flatMap (fun rule => rule row idx)

/-- rowLoop is the `for idx, row in enumerate(rows, start=1)` loop of
`validate_rows`. -/
def rowLoop : List Row → Nat → List PyError
  | [], _ => []
  | r :: rs, idx => runRowRules r idx ++ rowLoop rs (idx + 1)

/-- validate_rows runs all validation rules against every row
(translation of the Python function of the same name). -/
def validate_rows (rows : List Row) : List PyError :=
  GLOBAL_RULES.flatMap (fun g => g rows) ++ rowLoop rows 1

/-- ValidationReport is the report shape `validate_csv` returns. -/
structure ValidationReport where
  file : PyStr
  total_rows : Nat
  errors_found : Nat
  valid : Bool
  errors : List PyError
  deriving DecidableEq, Repr

/-- validate_csv models the report-building path of the `/validate`
endpoint after UTF-8 decoding and CSV parsing (both external
collaborators): the filename guard, the empty-rows guard, and the
construction of the report from `validate_rows`; `Option.none` models the
400 responses. -/
def validate_csv (filename : PyStr) (rows : List Row) : Option ValidationReport :=
  if filename = [] ∨ ¬ (lit ".csv").isSuffixOf filename then Option.none
  else if rows = [] then Option.none
  else
    let errors := validate_rows rows
    Option.some ⟨filename, rows.length, errors.length, errors.length == 0, errors⟩

/-- perRowRegistryOrder states the spec's registry order for one row: the
errors of the five per-row rules concatenated in the listed order. -/
def perRowRegistryOrder (row : Row) (idx : Nat) : List PyError :=
  check_required_fields row idx ++ check_account_number_format row idx ++
  check_amount_is_numeric row idx ++ check_transaction_date_format row idx ++
  check_currency_code row idx

/-- validateSpecOrdered states the spec's ordering guarantee: dataset-rule
errors first, then per-row errors by ascending 1-based position, each
row's errors in registry order. -/
def validateSpecOrdered (rows : List Row) : List PyError :=
  check_duplicate_transactions rows ++
  (List.range rows.length).flatMap (fun i => perRowRegistryOrder (rows.getD i []) (i + 1))

/-- dupSpec states the spec's duplicate-detection semantics with the key
the source actually uses: the row at 0-based index `i` is flagged exactly
when an earlier row has the same composite key, with a warning at
position `i + 1` on column `duplicate_check`. -/
def dupSpec (rows : List Row) : List PyError :=
  (List.range rows.length).filterMap (fun i =>
    if dupKey (rows.getD i []) ∈ (rows.take i).map dupKey then
      Option.some (mkErr (i + 1) (lit "duplicate_check") (dupMsg (dupKey (rows.getD i []))) (lit "warning"))
    else Option.none)

/-- rowUSD is a fully valid sample row. -/
def rowUSD : Row :=
  [(lit "account_number", Option.some (lit "12345678")),
   (lit "transaction_date", Option.some (lit "2024-01-15")),
   (lit "amount", Option.some (lit "100.50")),
   (lit "currency", Option.some (lit "USD"))]

/-- rowEUR agrees with rowUSD on account_number, transaction_date and
amount, and differs only in the currency field. -/
def rowEUR : Row :=
  [(lit "account_number", Option.some (lit "12345678")),
   (lit "transaction_date", Option.some (lit "2024-01-15")),
   (lit "amount", Option.some (lit "100.50")),
   (lit "currency", Option.some (lit "EUR"))]

/-- rowBlankDate has no account_number, a whitespace-only
transaction_date, and a nonblank amount. -/
def rowBlankDate : Row :=
  [(lit "transaction_date", Option.some (lit "  ")),
   (lit "amount", Option.some (lit "5"))]

/-- rowFeb30 carries the shape-matching but impossible date 2024-02-30. -/
def rowFeb30 : Row := [(lit "transaction_date", Option.some (lit "2024-02-30"))]

/-- rowSlashDate carries a date in the wrong shape. -/
def rowSlashDate : Row := [(lit "transaction_date", Option.some (lit "01/15/2024"))]

/-- rowBadAcct carries the non-numeric account number ABC. -/
def rowBadAcct : Row := [(lit "account_number", Option.some (lit "ABC"))]

/-- rowLowerCur carries the lowercase currency code us. -/
def rowLowerCur : Row := [(lit "currency", Option.some (lit "us"))]

/-- rowExpAmount carries the amount " 1e5 ", which is not plain decimal
notation yet parses under Python float syntax. -/
def rowExpAmount : Row := [(lit "amount", Option.some (lit " 1e5 "))]

/-- rowAbcAmount carries the amount " abc ", whose surrounding whitespace
exposes which value the error message quotes. -/
def rowAbcAmount : Row := [(lit "amount", Option.some (lit " abc "))]

/-- rowAllNone carries every field key mapped to the Python value None. -/
def rowAllNone : Row :=
  [(lit "account_number", Option.none), (lit "transaction_date", Option.none),
   (lit "amount", Option.none), (lit "currency", Option.none)]

/-- pyStrip of a nonempty result forces a nonempty input. -/
lemma isEmpty_eq_false_of_strip {s : PyStr} (h : ¬ pyStrip s = []) : s.isEmpty = false := by
  cases s with
  | nil => simp [pyStrip] at h
  | cons a t => rfl

/-- requiredCheckOne only emits errors at the given row index. -/
lemma requiredCheckOne_row {row : Row} {idx : Nat} {field : PyStr} {e : PyError}
    (h : e ∈ requiredCheckOne row idx field) : e.row = idx := by
  unfold requiredCheckOne at h
  split at h
  · simp [mkErr] at h
    subst h; rfl
  · split at h
    · simp [mkErr] at h
      subst h; rfl
    · simp at h

/-- check_required_fields only emits errors at the given row index. -/
lemma check_required_fields_row {row : Row} {idx : Nat} {e : PyError}
    (h : e ∈ check_required_fields row idx) : e.row = idx := by
  unfold check_required_fields at h
  rcases List.mem_flatMap.mp h with ⟨f, _, hf⟩
  exact requiredCheckOne_row hf

/-- check_account_number_format only emits errors at the given row index. -/
lemma check_account_number_format_row {row : Row} {idx : Nat} {e : PyError}
    (h : e ∈ check_account_number_format row idx) : e.row = idx := by
  simp only [check_account_number_format] at h
  split at h
  · simp at h
  · split at h
    · simp [mkErr] at h
      subst h; rfl
    · simp at h

/-- check_amount_is_numeric only emits errors at the given row index. -/
lemma check_amount_is_numeric_row {row : Row} {idx : Nat} {e : PyError}
    (h : e ∈ check_amount_is_numeric row idx) : e.row = idx := by
  simp only [check_amount_is_numeric] at h
  split at h
  · simp at h
  · split at h
    · simp at h
    · simp [mkErr] at h
      subst h; rfl

/-- check_transaction_date_format only emits errors at the given row
index. -/
lemma check_transaction_date_format_row {row : Row} {idx : Nat} {e : PyError}
    (h : e ∈ check_transaction_date_format row idx) : e.row = idx := by
  simp only [check_transaction_date_format] at h
  split at h
  · simp at h
  · split at h
    · simp [mkErr] at h
      subst h; rfl
    · split at h
      · simp [mkErr] at h
        subst h; rfl
      · simp at h

/-- check_currency_code only emits errors at the given row index. -/
lemma check_currency_code_row {row : Row} {idx : Nat} {e : PyError}
    (h : e ∈ check_currency_code row idx) : e.row = idx := by
  simp only [check_currency_code] at h
  split at h
  · simp at h
  · split at h
    · simp [mkErr] at h
      subst h; rfl
    · simp at h

/-- runRowRules only emits errors at the given row index. -/
lemma runRowRules_row {row : Row} {idx : Nat} {e : PyError}
    (h : e ∈ runRowRules row idx) : e.row = idx := by
  simp only [runRowRules, RULES, List.flatMap_cons, List.flatMap_nil, List.append_nil,
    List.mem_append] at h
  rcases h with h | h | h | h | h
  · exact check_required_fields_row h
  · exact check_account_number_format_row h
  · exact check_amount_is_numeric_row h
  · exact check_transaction_date_format_row h
  · exact check_currency_code_row h

/-- rowLoop only emits errors at positions `idx` to
`idx + rows.length - 1`. -/
lemma rowLoop_row_bounds : ∀ (rs : List Row) (idx : Nat) (e : PyError),
    e ∈ rowLoop rs idx → idx ≤ e.row ∧ e.row < idx + rs.length := by
  intro rs
  induction rs with
  | nil => intro idx e h; simp [rowLoop] at h
  | cons r t ih =>
      intro idx e h
      simp only [rowLoop, List.mem_append] at h
      rcases h with h | h
      · have hr := runRowRules_row h
        simp only [List.length_cons]
        omega
      · have hr := ih (idx + 1) e h
        simp only [List.length_cons]
        omega

/-- dupLoop only emits errors at positions `idx` to
`idx + rows.length - 1`. -/
lemma dupLoop_row_bounds : ∀ (rs : List Row) (idx : Nat) (seen : List (List PyStr)) (e : PyError),
    e ∈ dupLoop rs idx seen → idx ≤ e.row ∧ e.row < idx + rs.length := by
  intro rs
  induction rs with
  | nil => intro idx seen e h; simp [dupLoop] at h
  | cons r t ih =>
      intro idx seen e h
      simp only [dupLoop, List.mem_append] at h
      rcases h with h | h
      · split at h
        · simp [mkErr] at h
          have hr : e.row = idx := by rw [h]
          simp only [List.length_cons]
          omega
        · simp at h
      · have hr := ih (idx + 1) (dupKey r :: seen) e h
        simp only [List.length_cons]
        omega

/-- runRowRules is the concatenation of the five per-row rules in
registry order. -/
lemma runRowRules_eq (row : Row) (idx : Nat) :
    runRowRules row idx = perRowRegistryOrder row idx := by
  simp [runRowRules, RULES, perRowRegistryOrder, List.append_assoc]

/-- rowLoop in closed form: one registry-ordered block per 0-based index
`i`, at position `idx + i`. -/
lemma rowLoop_eq_range : ∀ (rs : List Row) (idx : Nat),
    rowLoop rs idx =
      (List.range rs.length).flatMap (fun i => runRowRules (rs.getD i []) (idx + i)) := by
  intro rs
  induction rs with
  | nil => intro idx; simp [rowLoop]
  | cons r t ih =>
      intro idx
      simp only [rowLoop, List.length_cons, List.range_succ_eq_map, List.flatMap_cons,
        List.getD_cons_zero, Nat.add_zero, List.flatMap_map, ih (idx + 1)]
      have hfun : (fun a : Nat => runRowRules ((r :: t).getD a.succ []) (idx + a.succ)) =
          (fun i : Nat => runRowRules (t.getD i []) (idx + 1 + i)) := by
        funext i
        simp only [Nat.succ_eq_add_one, List.getD_cons_succ]
        have harg : idx + (i + 1) = idx + 1 + i := by omega
        rw [harg]
      rw [hfun]

/-- filterMap on a cons whose head value is an if-then-else of an option
splits into an if-then-else block followed by the tail. -/
lemma filterMap_cons_ite {α β : Type _} (c : Prop) [Decidable c] (f : α → Option β)
    (a : α) (l : List α) (x : β) (h : f a = if c then Option.some x else Option.none) :
    List.filterMap f (a :: l) = (if c then [x] else []) ++ List.filterMap f l := by
  rw [List.filterMap_cons, h]
  by_cases hc : c <;> simp [hc]

/-- dupLoop in closed form: the row at 0-based index `i` is flagged at
position `idx + i` exactly when its key occurs in `seen` or among the
keys of the earlier rows. -/
lemma dupLoop_eq_range : ∀ (rs : List Row) (idx : Nat) (seen : List (List PyStr)),
    dupLoop rs idx seen =
      (List.range rs.length).filterMap (fun i =>
        if dupKey (rs.getD i []) ∈ seen ++ (rs.take i).map dupKey then
          Option.some (mkErr (idx + i) (lit "duplicate_check")
            (dupMsg (dupKey (rs.getD i []))) (lit "warning"))
        else Option.none) := by
  intro rs
  induction rs with
  | nil => intro idx seen; simp [dupLoop]
  | cons r t ih =>
      intro idx seen
      have hcond : (1 < ((dupKey r :: seen).count (dupKey r))) ↔ dupKey r ∈ seen := by
        rw [List.count_cons_self]
        constructor
        · intro h
          exact List.count_pos_iff.mp (by omega)
        · intro h
          have := List.count_pos_iff.mpr h
          omega
      rw [List.length_cons, List.range_succ_eq_map,
        filterMap_cons_ite (dupKey r ∈ seen) _ 0 _
          (mkErr idx (lit "duplicate_check") (dupMsg (dupKey r)) (lit "warning")) (by simp)]
      simp only [dupLoop, List.filterMap_map]
      rw [ih (idx + 1) (dupKey r :: seen)]
      have hfun : (fun i : Nat =>
          if dupKey (t.getD i []) ∈ (dupKey r :: seen) ++ (t.take i).map dupKey then
            Option.some (mkErr (idx + 1 + i) (lit "duplicate_check")
              (dupMsg (dupKey (t.getD i []))) (lit "warning"))
          else Option.none) =
          ((fun i : Nat =>
            if dupKey ((r :: t).getD i []) ∈ seen ++ ((r :: t).take i).map dupKey then
              Option.some (mkErr (idx + i) (lit "duplicate_check")
                (dupMsg (dupKey ((r :: t).getD i []))) (lit "warning"))
            else Option.none) ∘ Nat.succ) := by
        funext i
        simp only [Function.comp, Nat.succ_eq_add_one, List.getD_cons_succ,
          List.take_succ_cons, List.map_cons]
        have hiff : (dupKey (t.getD i []) ∈ (dupKey r :: seen) ++ (t.take i).map dupKey) ↔
            (dupKey (t.getD i []) ∈ seen ++ (dupKey r :: (t.take i).map dupKey)) := by
          simp only [List.mem_append, List.mem_cons]
          tauto
        have harg : idx + 1 + i = idx + (i + 1) := by omega
        rw [if_congr hiff (by rw [harg]) rfl]
      rw [hfun]
      congr 1
      rw [if_congr hcond rfl rfl]

/-- claim C3: the error sequence returned by validate_rows is the
dataset-rule errors followed by the per-row errors grouped by ascending
1-based row position, each row's block in the fixed registry order
required_fields, account_number_format, amount_numeric,
transaction_date_format, currency_code_format; as an equality of pure
functions of the input, the ordering is deterministic. -/
theorem claim3_ordering (rows : List Row) :
    validate_rows rows = validateSpecOrdered rows := by
  simp only [validate_rows, validateSpecOrdered, GLOBAL_RULES, List.flatMap_cons,
    List.flatMap_nil, List.append_nil, rowLoop_eq_range]
  have hfun : (fun i : Nat => runRowRules (rows.getD i []) (1 + i)) =
      (fun i : Nat => perRowRegistryOrder (rows.getD i []) (i + 1)) := by
    funext i
    rw [runRowRules_eq]
    have harg : 1 + i = i + 1 := by omega
    rw [harg]
  rw [hfun]

/-- claim C1, counterexample: two rows that agree on the trimmed values
of account_number, transaction_date and amount but differ in currency
produce zero duplicate errors, where the claim requires exactly one (at
the second occurrence); the currency field does influence membership in
the duplicate group. -/
theorem claim1_counterexample :
    pyStrip (pyStr (pyGet rowUSD (lit "account_number"))) =
        pyStrip (pyStr (pyGet rowEUR (lit "account_number"))) ∧
    pyStrip (pyStr (pyGet rowUSD (lit "transaction_date"))) =
        pyStrip (pyStr (pyGet rowEUR (lit "transaction_date"))) ∧
    pyStrip (pyStr (pyGet rowUSD (lit "amount"))) =
        pyStrip (pyStr (pyGet rowEUR (lit "amount"))) ∧
    check_duplicate_transactions [rowUSD, rowEUR] = [] := by
  refine ⟨by decide, by decide, by decide, by decide⟩

/-- claim C1 (amended): the dataset-wide duplicate check keys each row by
the trimmed string values of the four fields account_number,
transaction_date, amount and currency (a missing field contributing an
empty-string component); a row receives exactly one duplicate error
(severity warning, column duplicate_check, at its own 1-based position)
precisely when an earlier row carries the same key — so N rows agreeing
on the four trimmed components yield exactly N−1 duplicate errors, one at
each of the 2nd..Nth occurrences — and two rows share a key exactly when
all four trimmed components agree, so changing any one of the four
components to a different trimmed string removes the row from the
duplicate group. -/
theorem claim1_dup_semantics :
    (∀ rows : List Row, check_duplicate_transactions rows = dupSpec rows) ∧
    (∀ r1 r2 : Row, dupKey r1 = dupKey r2 ↔
      (pyStrip (pyStr (pyGet r1 (lit "account_number"))) =
          pyStrip (pyStr (pyGet r2 (lit "account_number"))) ∧
       pyStrip (pyStr (pyGet r1 (lit "transaction_date"))) =
          pyStrip (pyStr (pyGet r2 (lit "transaction_date"))) ∧
       pyStrip (pyStr (pyGet r1 (lit "amount"))) =
          pyStrip (pyStr (pyGet r2 (lit "amount"))) ∧
       pyStrip (pyStr (pyGet r1 (lit "currency"))) =
          pyStrip (pyStr (pyGet r2 (lit "currency"))))) := by
  constructor
  · intro rows
    simp only [check_duplicate_transactions, dupSpec, dupLoop_eq_range, List.nil_append]
    have hfun : (fun i : Nat =>
        if dupKey (rows.getD i []) ∈ (rows.take i).map dupKey then
          Option.some (mkErr (1 + i) (lit "duplicate_check")
            (dupMsg (dupKey (rows.getD i []))) (lit "warning"))
        else Option.none) =
        (fun i : Nat =>
          if dupKey (rows.getD i []) ∈ (rows.take i).map dupKey then
            Option.some (mkErr (i + 1) (lit "duplicate_check")
              (dupMsg (dupKey (rows.getD i []))) (lit "warning"))
          else Option.none) := by
      funext i
      have harg : 1 + i = i + 1 := by omega
      rw [harg]
    rw [hfun]
  · intro r1 r2
    simp [dupKey]

/-- claim C9: every error returned by validate_rows carries a 1-based row
position between 1 and the number of rows, and an empty row sequence
yields no errors at all. -/
theorem claim9_row_bounds :
    (∀ (rows : List Row) (e : PyError), e ∈ validate_rows rows →
      1 ≤ e.row ∧ e.row ≤ rows.length) ∧
    validate_rows [] = [] := by
  constructor
  · intro rows e h
    simp only [validate_rows, GLOBAL_RULES, List.flatMap_cons, List.flatMap_nil,
      List.append_nil, List.mem_append, check_duplicate_transactions] at h
    rcases h with h | h
    · have := dupLoop_row_bounds rows 1 [] e h
      omega
    · have := rowLoop_row_bounds rows 1 e h
      omega
  · rfl

/-- claim C9, witness: the theorem applied to the one-row sequence whose
row is the empty record and its first required-field error. -/
theorem claim9_row_bounds_witness :
    1 ≤ (mkErr 1 (lit "account_number")
          (lit "Required field \x27account_number\x27 is missing") (lit "error")).row ∧
    (mkErr 1 (lit "account_number")
          (lit "Required field \x27account_number\x27 is missing") (lit "error")).row ≤
      ([[]] : List Row).length :=
  claim9_row_bounds.1 [[]]
    (mkErr 1 (lit "account_number")
      (lit "Required field \x27account_number\x27 is missing") (lit "error"))
    (by decide)

/-- claim C4: any report built by validate_csv has errors_found equal to
the length of its error list, and its valid flag is true exactly when
errors_found is zero; valid is computed from the error count, never set
independently. -/
theorem claim4_report_invariant (f : PyStr) (rows : List Row) (rep : ValidationReport)
    (h : validate_csv f rows = Option.some rep) :
    rep.errors_found = rep.errors.length ∧ (rep.valid = true ↔ rep.errors_found = 0) := by
  simp only [validate_csv] at h
  split at h
  · simp at h
  · split at h
    · simp at h
    · simp only [Option.some.injEq] at h
      subst h
      refine ⟨rfl, ?_⟩
      simp

/-- claim C4, witness: the theorem applied to a concrete upload of one
valid row. -/
theorem claim4_report_invariant_witness :
    (⟨lit "t.csv", 1, 0, true, []⟩ : ValidationReport).errors_found =
        (⟨lit "t.csv", 1, 0, true, []⟩ : ValidationReport).errors.length ∧
      ((⟨lit "t.csv", 1, 0, true, []⟩ : ValidationReport).valid = true ↔
        (⟨lit "t.csv", 1, 0, true, []⟩ : ValidationReport).errors_found = 0) :=
  claim4_report_invariant (lit "t.csv") [rowUSD] ⟨lit "t.csv", 1, 0, true, []⟩ (by decide)

/-- claim C5: check_required_fields checks account_number,
transaction_date and amount in that fixed order and independently: per
field it emits the "is missing" error when the key is absent, the
"is empty" error when the value is an empty or whitespace-only string,
and nothing otherwise; a row missing all three yields exactly 3
errors. -/
theorem claim5_required_fields (row : Row) (idx : Nat) :
    check_required_fields row idx =
      requiredCheckOne row idx (lit "account_number") ++
      requiredCheckOne row idx (lit "transaction_date") ++
      requiredCheckOne row idx (lit "amount") ∧
    (∀ field : PyStr, rowGet? row field = Option.none →
      requiredCheckOne row idx field =
        [mkErr idx field (lit "Required field \x27" ++ field ++ lit "\x27 is missing")
          (lit "error")]) ∧
    (∀ field s : PyStr, rowGet? row field = Option.some (Option.some s) →
      pyStrip s = [] →
      requiredCheckOne row idx field =
        [mkErr idx field (lit "Required field \x27" ++ field ++ lit "\x27 is empty")
          (lit "error")]) ∧
    (∀ field s : PyStr, rowGet? row field = Option.some (Option.some s) →
      ¬ pyStrip s = [] → requiredCheckOne row idx field = []) ∧
    (rowGet? row (lit "account_number") = Option.none →
     rowGet? row (lit "transaction_date") = Option.none →
     rowGet? row (lit "amount") = Option.none →
     (check_required_fields row idx).length = 3) := by
  refine ⟨?_, ?_, ?_, ?_, ?_⟩
  · simp [check_required_fields, required, List.append_assoc]
  · intro field h
    simp [requiredCheckOne, h]
  · intro field s h hs
    simp [requiredCheckOne, h, pyStr, hs]
  · intro field s h hs
    simp [requiredCheckOne, h, pyStr, hs]
  · intro h1 h2 h3
    simp [check_required_fields, required, requiredCheckOne, h1, h2, h3]

/-- claim C5, witness: the theorem applied to concrete rows exercising
the missing, empty, present and all-three-missing cases. -/
theorem claim5_required_fields_witness :
    requiredCheckOne rowBlankDate 1 (lit "account_number") =
      [mkErr 1 (lit "account_number")
        (lit "Required field \x27" ++ lit "account_number" ++ lit "\x27 is missing")
        (lit "error")] ∧
    requiredCheckOne rowBlankDate 1 (lit "transaction_date") =
      [mkErr 1 (lit "transaction_date")
        (lit "Required field \x27" ++ lit "transaction_date" ++ lit "\x27 is empty")
        (lit "error")] ∧
    requiredCheckOne rowBlankDate 1 (lit "amount") = [] ∧
    (check_required_fields [] 1).length = 3 :=
  ⟨(claim5_required_fields rowBlankDate 1).2.1 (lit "account_number") (by decide),
   (claim5_required_fields rowBlankDate 1).2.2.1 (lit "transaction_date") (lit "  ")
     (by decide) (by decide),
   (claim5_required_fields rowBlankDate 1).2.2.2.1 (lit "amount") (lit "5")
     (by decide) (by decide),
   (claim5_required_fields [] 1).2.2.2.2 (by decide) (by decide) (by decide)⟩

/-- claim C6: check_transaction_date_format yields at most one error per
row; it emits nothing when the field is absent or blank; when the trimmed
value fails the 4-digits/hyphen/2-digits/hyphen/2-digits shape it emits
only the "Invalid date format" error (calendar validation is never
reached); the "not a real calendar date" error arises only for values
that matched the shape, and a shape-matching real date yields nothing. -/
theorem claim6_date_rule (row : Row) (idx : Nat) :
    (check_transaction_date_format row idx).length ≤ 1 ∧
    (rowGet? row (lit "transaction_date") = Option.none →
        check_transaction_date_format row idx = []) ∧
    (∀ s : PyStr, rowGet? row (lit "transaction_date") = Option.some (Option.some s) →
        pyStrip s = [] → check_transaction_date_format row idx = []) ∧
    (∀ s : PyStr, rowGet? row (lit "transaction_date") = Option.some (Option.some s) →
        ¬ pyStrip s = [] → matchDateShape (pyStrip s) = false →
        check_transaction_date_format row idx =
          [mkErr idx (lit "transaction_date")
            (lit "Invalid date format: \x27" ++ pyStrip s ++ lit "\x27 (expected YYYY-MM-DD)")
            (lit "error")]) ∧
    (∀ s : PyStr, rowGet? row (lit "transaction_date") = Option.some (Option.some s) →
        matchDateShape (pyStrip s) = true → strptimeYmdOk (pyStrip s) = false →
        check_transaction_date_format row idx =
          [mkErr idx (lit "transaction_date")
            (lit "Invalid date: \x27" ++ pyStrip s ++ lit "\x27 is not a real calendar date")
            (lit "error")]) ∧
    (∀ s : PyStr, rowGet? row (lit "transaction_date") = Option.some (Option.some s) →
        matchDateShape (pyStrip s) = true → strptimeYmdOk (pyStrip s) = true →
        check_transaction_date_format row idx = []) := by
  refine ⟨?_, ?_, ?_, ?_, ?_, ?_⟩
  · simp only [check_transaction_date_format]
    split
    · simp
    · split
      · simp
      · split
        · simp
        · simp
  · intro h
    simp [check_transaction_date_format, pyGet, h, pyTruthy]
  · intro s h hs
    simp [check_transaction_date_format, pyGet, h, pyStr, pyTruthy, hs]
  · intro s h hs hshape
    have hne := isEmpty_eq_false_of_strip hs
    simp [check_transaction_date_format, pyGet, h, pyStr, pyTruthy, hne, hs, hshape]
  · intro s h hshape hreal
    have hs : ¬ pyStrip s = [] := by
      intro hh
      rw [hh] at hshape
      simp [matchDateShape] at hshape
    have hne := isEmpty_eq_false_of_strip hs
    simp [check_transaction_date_format, pyGet, h, pyStr, pyTruthy, hne, hs, hshape, hreal]
  · intro s h hshape hreal
    have hs : ¬ pyStrip s = [] := by
      intro hh
      rw [hh] at hshape
      simp [matchDateShape] at hshape
    have hne := isEmpty_eq_false_of_strip hs
    simp [check_transaction_date_format, pyGet, h, pyStr, pyTruthy, hne, hs, hshape, hreal]

/-- claim C6, witness: the theorem applied to a wrong-shape date and to an
impossible calendar date. -/
theorem claim6_date_rule_witness :
    check_transaction_date_format rowSlashDate 1 =
      [mkErr 1 (lit "transaction_date")
        (lit "Invalid date format: \x27" ++ pyStrip (lit "01/15/2024") ++
          lit "\x27 (expected YYYY-MM-DD)") (lit "error")] ∧
    check_transaction_date_format rowFeb30 1 =
      [mkErr 1 (lit "transaction_date")
        (lit "Invalid date: \x27" ++ pyStrip (lit "2024-02-30") ++
          lit "\x27 is not a real calendar date") (lit "error")] :=
  ⟨(claim6_date_rule rowSlashDate 1).2.2.2.1 (lit "01/15/2024")
     (by decide) (by decide) (by decide),
   (claim6_date_rule rowFeb30 1).2.2.2.2.1 (lit "2024-02-30")
     (by decide) (by decide) (by decide)⟩

/-- claim C7: check_account_number_format emits nothing when
account_number is absent or empty/whitespace-only, and otherwise emits
exactly the single "Invalid format" severity-error precisely when the
trimmed value is not a string of 8 to 12 ASCII decimal digits in its
entirety. -/
theorem claim7_account_rule (row : Row) (idx : Nat) :
    (rowGet? row (lit "account_number") = Option.none →
        check_account_number_format row idx = []) ∧
    (∀ s : PyStr, rowGet? row (lit "account_number") = Option.some (Option.some s) →
        pyStrip s = [] → check_account_number_format row idx = []) ∧
    (∀ s : PyStr, rowGet? row (lit "account_number") = Option.some (Option.some s) →
        ¬ pyStrip s = [] →
        check_account_number_format row idx =
          (if matchDigits8to12 (pyStrip s) then []
           else [mkErr idx (lit "account_number")
             (lit "Invalid format: \x27" ++ pyStrip s ++ lit "\x27 (expected 8-12 digits)")
             (lit "error")])) ∧
    (∀ v : PyStr, matchDigits8to12 v = true ↔
        (8 ≤ v.length ∧ v.length ≤ 12 ∧ ∀ c ∈ v, c.isDigit = true)) := by
  refine ⟨?_, ?_, ?_, ?_⟩
  · intro h
    simp [check_account_number_format, pyGet, h, pyTruthy]
  · intro s h hs
    simp [check_account_number_format, pyGet, h, pyStr, pyTruthy, hs]
  · intro s h hs
    have hne := isEmpty_eq_false_of_strip hs
    by_cases hm : matchDigits8to12 (pyStrip s) = true
    · simp [check_account_number_format, pyGet, h, pyStr, pyTruthy, hne, hs, hm]
    · simp only [Bool.not_eq_true] at hm
      simp [check_account_number_format, pyGet, h, pyStr, pyTruthy, hne, hs, hm]
  · intro v
    simp [matchDigits8to12, List.all_eq_true, and_assoc]

/-- claim C7, witness: the theorem applied to an absent field and to the
account number ABC. -/
theorem claim7_account_rule_witness :
    check_account_number_format [] 1 = [] ∧
    check_account_number_format rowBadAcct 1 =
      (if matchDigits8to12 (pyStrip (lit "ABC")) then []
       else [mkErr 1 (lit "account_number")
         (lit "Invalid format: \x27" ++ pyStrip (lit "ABC") ++ lit "\x27 (expected 8-12 digits)")
         (lit "error")]) ∧
    (matchDigits8to12 (lit "12345678") = true ↔
      (8 ≤ (lit "12345678").length ∧ (lit "12345678").length ≤ 12 ∧
        ∀ c ∈ lit "12345678", c.isDigit = true)) :=
  ⟨(claim7_account_rule [] 1).1 (by decide),
   (claim7_account_rule rowBadAcct 1).2.2.1 (lit "ABC") (by decide) (by decide),
   (claim7_account_rule [] 1).2.2.2 (lit "12345678")⟩

/-- claim C8: check_currency_code emits nothing when currency is absent
or empty/whitespace-only, and otherwise emits exactly the single
"Invalid currency code" warning precisely when the trimmed value is not
exactly three uppercase ASCII letters. -/
theorem claim8_currency_rule (row : Row) (idx : Nat) :
    (rowGet? row (lit "currency") = Option.none →
        check_currency_code row idx = []) ∧
    (∀ s : PyStr, rowGet? row (lit "currency") = Option.some (Option.some s) →
        pyStrip s = [] → check_currency_code row idx = []) ∧
    (∀ s : PyStr, rowGet? row (lit "currency") = Option.some (Option.some s) →
        ¬ pyStrip s = [] →
        check_currency_code row idx =
          (if matchUpper3 (pyStrip s) then []
           else [mkErr idx (lit "currency")
             (lit "Invalid currency code: \x27" ++ pyStrip s ++
               lit "\x27 (expected 3-letter ISO like USD, EUR)")
             (lit "warning")])) ∧
    (∀ v : PyStr, matchUpper3 v = true ↔
        (v.length = 3 ∧ ∀ c ∈ v, 'A' ≤ c ∧ c ≤ 'Z')) := by
  refine ⟨?_, ?_, ?_, ?_⟩
  · intro h
    simp [check_currency_code, pyGet, h, pyTruthy]
  · intro s h hs
    simp [check_currency_code, pyGet, h, pyStr, pyTruthy, hs]
  · intro s h hs
    have hne := isEmpty_eq_false_of_strip hs
    by_cases hm : matchUpper3 (pyStrip s) = true
    · simp [check_currency_code, pyGet, h, pyStr, pyTruthy, hne, hs, hm]
    · simp only [Bool.not_eq_true] at hm
      simp [check_currency_code, pyGet, h, pyStr, pyTruthy, hne, hs, hm]
  · intro v
    simp [matchUpper3, List.all_eq_true]

/-- claim C8, witness: the theorem applied to an absent field and to the
currency value us. -/
theorem claim8_currency_rule_witness :
    check_currency_code [] 1 = [] ∧
    check_currency_code rowLowerCur 1 =
      (if matchUpper3 (pyStrip (lit "us")) then []
       else [mkErr 1 (lit "currency")
         (lit "Invalid currency code: \x27" ++ pyStrip (lit "us") ++
           lit "\x27 (expected 3-letter ISO like USD, EUR)")
         (lit "warning")]) ∧
    (matchUpper3 (lit "USD") = true ↔
      ((lit "USD").length = 3 ∧ ∀ c ∈ lit "USD", 'A' ≤ c ∧ c ≤ 'Z')) :=
  ⟨(claim8_currency_rule [] 1).1 (by decide),
   (claim8_currency_rule rowLowerCur 1).2.2.1 (lit "us") (by decide) (by decide),
   (claim8_currency_rule [] 1).2.2.2 (lit "USD")⟩

/-- claim C2, counterexample: on the amount " 1e5 " the rule emits no
error although the trimmed, comma-stripped value "1e5" is not standard
decimal notation (optional sign, optional fractional part), and on the
amount " abc " the single emitted error quotes the original untrimmed
value " abc ", not the trimmed value "abc" the claim requires. -/
theorem claim2_counterexample :
    check_amount_is_numeric rowExpAmount 1 = [] ∧
    check_amount_is_numeric rowAbcAmount 1 =
      [mkErr 1 (lit "amount") (lit "Not a valid number: \x27 abc \x27") (lit "error")] ∧
    ¬ lit "Not a valid number: \x27 abc \x27" = lit "Not a valid number: \x27abc\x27" := by
  refine ⟨by decide, by decide, by decide⟩

/-- claim C2 (amended): for a row whose amount is a present,
non-whitespace-only string, check_amount_is_numeric trims whitespace,
removes commas, and emits an error precisely when the result is not
accepted by the Python float syntax (which extends plain signed decimal
notation with exponents, the special values inf/infinity/nan, and
underscores between digits); the single error has column amount,
severity error, and message "Not a valid number: '<v>'" quoting the
original untrimmed field value. -/
theorem claim2_amount_amended (row : Row) (idx : Nat) :
    ∀ s : PyStr, rowGet? row (lit "amount") = Option.some (Option.some s) →
      ¬ pyStrip s = [] →
      check_amount_is_numeric row idx =
        (if pyFloatAccepts ((pyStrip s).filter (fun c => c != ',')) then []
         else [mkErr idx (lit "amount")
           (lit "Not a valid number: \x27" ++ s ++ lit "\x27") (lit "error")]) := by
  intro s h hs
  have hne := isEmpty_eq_false_of_strip hs
  by_cases hm : pyFloatAccepts ((pyStrip s).filter (fun c => c != ',')) = true
  · simp [check_amount_is_numeric, pyGet, h, pyStr, pyTruthy, hne, hs, hm]
  · simp only [Bool.not_eq_true] at hm
    simp [check_amount_is_numeric, pyGet, h, pyStr, pyTruthy, hne, hs, hm]

/-- claim C2, witness: the amended theorem applied to the amount
" abc ". -/
theorem claim2_amount_amended_witness :
    check_amount_is_numeric rowAbcAmount 1 =
      (if pyFloatAccepts ((pyStrip (lit " abc ")).filter (fun c => c != ',')) then []
       else [mkErr 1 (lit "amount")
         (lit "Not a valid number: \x27" ++ lit " abc " ++ lit "\x27") (lit "error")]) :=
  claim2_amount_amended rowAbcAmount 1 (lit " abc ") (by decide) (by decide)

/-- claim C10: a field key present with the Python value None (as the CSV
parser produces for missing trailing columns) is treated like an empty
string: required_fields emits the "is empty" error for it (shown as an
exact equation, so the "is missing" error is not emitted), and each of
the four format rules emits nothing for it. -/
theorem claim10_none_handling (row : Row) (idx : Nat) :
    (∀ field : PyStr, field ∈ required →
      rowGet? row field = Option.some Option.none →
      requiredCheckOne row idx field =
        [mkErr idx field (lit "Required field \x27" ++ field ++ lit "\x27 is empty")
          (lit "error")] ∧
      mkErr idx field (lit "Required field \x27" ++ field ++ lit "\x27 is empty")
          (lit "error") ∈ check_required_fields row idx) ∧
    (rowGet? row (lit "account_number") = Option.some Option.none →
      check_account_number_format row idx = []) ∧
    (rowGet? row (lit "amount") = Option.some Option.none →
      check_amount_is_numeric row idx = []) ∧
    (rowGet? row (lit "transaction_date") = Option.some Option.none →
      check_transaction_date_format row idx = []) ∧
    (rowGet? row (lit "currency") = Option.some Option.none →
      check_currency_code row idx = []) := by
  refine ⟨?_, ?_, ?_, ?_, ?_⟩
  · intro field hf h
    have heq : requiredCheckOne row idx field =
        [mkErr idx field (lit "Required field \x27" ++ field ++ lit "\x27 is empty")
          (lit "error")] := by
      simp [requiredCheckOne, h]
    refine ⟨heq, ?_⟩
    unfold check_required_fields
    exact List.mem_flatMap.mpr ⟨field, hf, by rw [heq]; exact List.mem_singleton.mpr rfl⟩
  · intro h
    simp [check_account_number_format, pyGet, h, pyTruthy]
  · intro h
    simp [check_amount_is_numeric, pyGet, h, pyTruthy]
  · intro h
    simp [check_transaction_date_format, pyGet, h, pyTruthy]
  · intro h
    simp [check_currency_code, pyGet, h, pyTruthy]

/-- claim C10, witness: the theorem applied to the all-None row. -/
theorem claim10_none_handling_witness :
    (requiredCheckOne rowAllNone 1 (lit "amount") =
      [mkErr 1 (lit "amount")
        (lit "Required field \x27" ++ lit "amount" ++ lit "\x27 is empty") (lit "error")] ∧
     mkErr 1 (lit "amount")
        (lit "Required field \x27" ++ lit "amount" ++ lit "\x27 is empty") (lit "error") ∈
       check_required_fields rowAllNone 1) ∧
    check_account_number_format rowAllNone 1 = [] ∧
    check_amount_is_numeric rowAllNone 1 = [] ∧
    check_transaction_date_format rowAllNone 1 = [] ∧
    check_currency_code rowAllNone 1 = [] :=
  ⟨(claim10_none_handling rowAllNone 1).1 (lit "amount") (by decide) (by decide),
   (claim10_none_handling rowAllNone 1).2.1 (by decide),
   (claim10_none_handling rowAllNone 1).2.2.1 (by decide),
   (claim10_none_handling rowAllNone 1).2.2.2.1 (by decide),
   (claim10_none_handling rowAllNone 1).2.2.2.2 (by decide)⟩

end BankingValidator
